import Mathlib

/-!
Verification of the ContainerPrinter repository.

The repository holds the header `ContainerPrinter.hpp` (type traits, the
delimiter table, the default formatter, the tuple handler, the ToStream
overloads and the guarded stream-insertion operator) together with the unit
tests `csio_unit_tests.cpp` of its successor header `container_stream_io.hh`
(4-token delimiters, escaping engine); that successor header itself is not in
the source tree, so its parts are modelled from the specification, with the
concrete token and escape values fixed by the unit tests that are present.

Streams are modelled as the string written so far; writing is appending.
Characters are code points (Nat); C++ types are a small closed universe
covering the template specializations the header distinguishes.
-/

namespace ContainerPrinter

/-- Small helper lemmas about string append, used to normalise outputs. -/
theorem str_data_append (a b : String) : (a ++ b).data = a.data ++ b.data := by
  cases a; cases b; rfl

theorem str_append_assoc (a b c : String) : a ++ b ++ c = a ++ (b ++ c) := by
  apply String.ext
  simp [str_data_append]

theorem str_empty_append (a : String) : "" ++ a = a := by
  apply String.ext
  simp [str_data_append]

theorem str_append_empty (a : String) : a ++ "" = a := by
  apply String.ext
  simp [str_data_append]

/-- Join a list of rendered elements, emitting `sep` before each element
after the first: the write pattern of the generic ToStream loop. -/
def tailJoin (sep : String) : List String → String
  | [] => ""
  | r :: rs => sep ++ r ++ tailJoin sep rs

/-- Separator-interleaved join: first element, then `sep` before the rest. -/
def sepJoin (sep : String) : List String → String
  | [] => ""
  | r :: rs => r ++ tailJoin sep rs

theorem tailJoin_append (sep : String) (l : List String) (z : String) :
    tailJoin sep (l ++ [z]) = tailJoin sep l ++ (sep ++ z) := by
  induction l with
  | nil => simp [tailJoin, str_append_empty, str_empty_append, str_append_assoc]
  | cons x xs ih =>
      simp [tailJoin, ih, str_append_assoc]

theorem sepJoin_append (sep : String) (l : List String) (z : String)
    (h : l ≠ []) :
    sepJoin sep (l ++ [z]) = sepJoin sep l ++ sep ++ z := by
  cases l with
  | nil => exact absurd rfl h
  | cons x xs =>
      simp [sepJoin, tailJoin_append, str_append_assoc]

/-! ## The C++ type universe

`CppType` covers exactly the shapes the header's template machinery
distinguishes: scalars, C arrays `T[N]`, `std::pair`, `std::tuple`,
`std::basic_string`, and standard containers exposing `begin()`, `end()`,
`empty()`, `value_type` and `iterator`. -/

inductive ScalarKind where
  | charS | wcharS | char16S | char32S | intS | doubleS
  deriving DecidableEq, Repr

inductive StdKind where
  | vectorK | setK | multisetK | mapK | multimapK | listK
  deriving DecidableEq, Repr

inductive CppType where
  | scalar : ScalarKind → CppType
  | carray : CppType → Nat → CppType
  | pairT : CppType → CppType → CppType
  | tupleT : List CppType → CppType
  | basicString : ScalarKind → CppType
  | stdCont : StdKind → CppType → CppType

namespace Traits

/-- Embeds `Traits::is_printable_as_container`.  The match arms are the
template specializations in the order C++ partial ordering selects them:
`char[N]` and `wchar_t[N]` are more specialized than `ArrayType[N]`;
`std::pair`, `std::tuple` and `ArrayType[N]` are true; `std::basic_string`
is false; types with begin/end/empty/value_type/iterator (the standard
containers of the universe) match the SFINAE specialization; the base case
is false. -/
def is_printable_as_container : CppType → Bool
  | .carray (.scalar .charS) _ => false
  | .carray (.scalar .wcharS) _ => false
  | .carray _ _ => true
  | .pairT _ _ => true
  | .tupleT _ => true
  | .basicString _ => false
  | .stdCont _ _ => true
  | .scalar _ => false

/-- Modelled from the spec: the character-scalar classification
(`is_char_variant` of the missing `container_stream_io.hh`, exercised by the
unit tests), covering the 8-bit, wide, 16-bit and 32-bit character kinds. -/
def is_char_variant : ScalarKind → Bool
  | .charS => true
  | .wcharS => true
  | .char16S => true
  | .char32S => true
  | _ => false

end Traits

namespace Decorator

/-- Embeds `Decorator::wrapper`: the prefix, separator and suffix tokens of
one delimiter specialization (the header's wrapper has exactly these three
members). -/
structure Wrapper where
  pre : String
  sep : String
  suf : String
  deriving DecidableEq, Repr

/-- The two stream character widths the header specializes for
(`char` and `wchar_t`). -/
inductive CharWidthCp where
  | narrowW | wideW
  deriving DecidableEq, Repr

/-- Delimiters selected for a standard container type: the header
specializes `std::set` and `std::multiset` (curly braces) and leaves every
other container type, `std::map` included, to the default square brackets.
The narrow and wide specializations carry the same glyphs. -/
def contDelims : StdKind → Wrapper
  | .setK => ⟨"\x7b", ", ", "\x7d"⟩
  | .multisetK => ⟨"\x7b", ", ", "\x7d"⟩
  | _ => ⟨"[", ", ", "]"⟩

/-- Embeds the `std::pair` delimiter specialization. -/
def pairDelims : Wrapper := ⟨"(", ", ", ")"⟩

/-- Embeds the `std::tuple` delimiter specialization. -/
def tupleDelims : Wrapper := ⟨"<", ", ", ">"⟩

/-- Embeds `Decorator::delimiters<ContainerType, CharacterType>::values`:
the specialization C++ selects for a given container type at a given stream
character width.  Both widths exist in the header with identical glyph
content, so the lookup is width-uniform. -/
def delimiters : CharWidthCp → CppType → Wrapper
  | _, .stdCont k _ => contDelims k
  | _, .pairT _ _ => pairDelims
  | _, .tupleT _ => tupleDelims
  | _, _ => ⟨"[", ", ", "]"⟩

end Decorator

/-! ## Streams and printable values

A stream is the text written to it so far; `wr` is one sequential write.
`Value` is a runtime value of the universe: its constructors carry enough
type information (`StdKind` and declared element type for containers) to
reproduce the overload dispatch of the header. -/

structure CStream where
  out : String
  deriving DecidableEq, Repr

/-- One write of `text` to the stream: output streams append. -/
def wr (s : CStream) (t : String) : CStream := ⟨s.out ++ t⟩

inductive Value where
  | vint : Int → Value
  | vstr : List Nat → Value
  | vpair : Value → Value → Value
  | vtuple : List Value → Value
  | vlist : StdKind → CppType → List Value → Value

mutual
/-- The static C++ type of a value (used by the stream operator's
`enable_if` guard). -/
def typeOfValue : Value → CppType
  | .vint _ => .scalar .intS
  | .vstr _ => .basicString .charS
  | .vpair a b => .pairT (typeOfValue a) (typeOfValue b)
  | .vtuple xs => .tupleT (typeOfList xs)
  | .vlist k et _ => .stdCont k et

def typeOfList : List Value → List CppType
  | [] => []
  | x :: xs => typeOfValue x :: typeOfList xs
end

/-- Character codes rendered directly as stream characters. -/
def strOfCodes (cs : List Nat) : String := ⟨cs.map Char.ofNat⟩

/-- Code points of a Lean string, for writing concrete inputs. -/
def codes (s : String) : List Nat := s.data.map Char.toNat

/-- Embeds the `tuple_handler` specializations over the list of already
rendered element strings `rs`; `n` is the number of leading tuple elements
the handler instance covers (`sizeof...` of its type pack).  The empty
specialization prints nothing, the single-element one prints `get<0>`, and
the recursive one first delegates to the handler of one element fewer and
then prints the tuple separator followed by the element at the last covered
index. -/
def tupleHandlerAux (rs : List String) : Nat → String
  | 0 => ""
  | 1 => rs.headD ""
  | Nat.succ (Nat.succ k) =>
      tupleHandlerAux rs (k + 1) ++ Decorator.tupleDelims.sep ++ rs.getD (k + 1) ""

/-! The stateful printing pipeline.  `streamIns s v` is `s << v`: native
formatting for scalars and strings, the ToStream overloads for pairs,
tuples and containers (always with the default formatter, whose
`print_element` is itself `stream << element`).  `insEach` is the
`std::for_each` loop body of the generic overload: separator then element
for every element after the first.  `renderEach` collects the renderings of
the tuple elements for the tuple handler. -/

mutual
def streamIns : CStream → Value → CStream
  | s, .vint i => wr s (toString i)
  | s, .vstr cs => wr s (strOfCodes cs)
  | s, .vpair a b =>
      wr (streamIns (wr (streamIns (wr s Decorator.pairDelims.pre) a)
        Decorator.pairDelims.sep) b) Decorator.pairDelims.suf
  | s, .vtuple xs =>
      wr s (Decorator.tupleDelims.pre ++
        tupleHandlerAux (renderEach xs) xs.length ++ Decorator.tupleDelims.suf)
  | s, .vlist k _ xs =>
      match xs with
      | [] => wr (wr s (Decorator.contDelims k).pre) (Decorator.contDelims k).suf
      | x :: rest =>
          wr (insEach (streamIns (wr s (Decorator.contDelims k).pre) x)
            (Decorator.contDelims k).sep rest) (Decorator.contDelims k).suf

def insEach : CStream → String → List Value → CStream
  | s, _, [] => s
  | s, sep, x :: rest => insEach (streamIns (wr s sep) x) sep rest

def renderEach : List Value → List String
  | [] => []
  | x :: xs => (streamIns ⟨""⟩ x).out :: renderEach xs
end

/-- Embeds the guarded stream-insertion operator: it participates only when
`Traits::is_printable_as_container` holds of the value's type (the
`enable_if` constraint), in which case it calls ToStream on the given
stream and returns that stream. -/
def opStreamIns (s : CStream) (v : Value) : Option CStream :=
  if Traits.is_printable_as_container (typeOfValue v) then some (streamIns s v)
  else none

mutual
/-- The text a value prints as, independent of the stream it is printed to
(each case mirrors the corresponding `streamIns` write sequence). -/
def render : Value → String
  | .vint i => toString i
  | .vstr cs => strOfCodes cs
  | .vpair a b =>
      Decorator.pairDelims.pre ++ render a ++ Decorator.pairDelims.sep ++
        render b ++ Decorator.pairDelims.suf
  | .vtuple xs =>
      Decorator.tupleDelims.pre ++ tupleHandlerAux (renderList xs) xs.length ++
        Decorator.tupleDelims.suf
  | .vlist k _ xs =>
      (Decorator.contDelims k).pre ++
        sepJoin (Decorator.contDelims k).sep (renderList xs) ++
        (Decorator.contDelims k).suf

def renderList : List Value → List String
  | [] => []
  | x :: xs => render x :: renderList xs
end

mutual
/-- Writes are appends: inserting a value into any stream appends exactly
its rendering. -/
theorem streamIns_eq : (v : Value) → (s : CStream) →
    streamIns s v = wr s (render v)
  | .vint _, _ => rfl
  | .vstr _, _ => rfl
  | .vpair a b, s => by
      rw [streamIns, streamIns_eq a, streamIns_eq b, render]
      simp [wr, str_append_assoc]
  | .vtuple xs, s => by
      rw [streamIns, renderEach_eq xs, render]
  | .vlist k et xs, s => by
      match xs with
      | [] =>
          rw [streamIns, render, renderList]
          simp [wr, sepJoin, str_append_assoc, str_append_empty]
      | x :: rest =>
          rw [streamIns, streamIns_eq x, insEach_eq rest, render, renderList]
          simp [wr, sepJoin, str_append_assoc]

theorem insEach_eq : (l : List Value) → (sep : String) → (s : CStream) →
    insEach s sep l = wr s (tailJoin sep (renderList l))
  | [], _, s => by
      cases s
      simp [insEach, tailJoin, renderList, wr, str_append_empty]
  | x :: rest, sep, s => by
      rw [insEach, streamIns_eq x, insEach_eq rest, renderList, tailJoin]
      simp [wr, str_append_assoc]

theorem renderEach_eq : (l : List Value) → renderEach l = renderList l
  | [] => rfl
  | x :: xs => by
      rw [renderEach, streamIns_eq x, renderEach_eq xs, renderList]
      simp [wr, str_empty_append]
end

/-- The tuple handler covering the first `n` elements joins them with the
tuple separator. -/
theorem tupleHandlerAux_take (rs : List String) :
    ∀ n, 1 ≤ n → n ≤ rs.length →
      tupleHandlerAux rs n = sepJoin Decorator.tupleDelims.sep (rs.take n)
  | 1, _, hle => by
      cases rs with
      | nil => simp at hle
      | cons x xs =>
          simp [tupleHandlerAux, sepJoin, tailJoin, str_append_empty]
  | Nat.succ (Nat.succ k), _, hle => by
      have hk1 : k + 1 ≤ rs.length := Nat.le_of_succ_le hle
      have hlt : k + 1 < rs.length := hle
      rw [tupleHandlerAux, tupleHandlerAux_take rs (k + 1) (Nat.le_add_left 1 k) hk1]
      have htake : rs.take (k + 2) = rs.take (k + 1) ++ [rs.getD (k + 1) ""] := by
        rw [List.take_succ]
        congr 1
        rw [List.getElem?_eq_getElem hlt]
        simp [List.getD_eq_getElem?_getD, List.getElem?_eq_getElem hlt]
      rw [htake, sepJoin_append]
      intro hnil
      have : (rs.take (k + 1)).length = 0 := by rw [hnil]; rfl
      rw [List.length_take] at this
      omega

/-- The tuple handler run over the full list is the separator-join of the
whole list. -/
theorem tupleHandlerAux_sepJoin (rs : List String) :
    tupleHandlerAux rs rs.length = sepJoin Decorator.tupleDelims.sep rs := by
  cases rs with
  | nil => rfl
  | cons x xs =>
      rw [tupleHandlerAux_take (x :: xs) (x :: xs).length (by simp) (Nat.le_refl _)]
      rw [List.take_length]

end ContainerPrinter

namespace ContainerStreamIO

/-! Model of `container_stream_io.hh`.  That header is part of this
repository but absent from the source tree; only its unit tests are
present.  The definitions below are modelled from the specification
(delimiter table §4.2, escaping engine §4.3, default formatter §4.4), with
every concrete token and escape value fixed by the unit tests. -/

/-- Modelled from the spec: the character kinds of the missing header
(`char`, `wchar_t`, `char16_t`, `char32_t`), with `wchar_t` at its tested
32-bit width. -/
inductive CharKind where
  | charC | wcharC | char16C | char32C
  deriving DecidableEq, Repr

/-- Modelled from the spec: bit width of each character kind. -/
def kindBits : CharKind → Nat
  | .charC => 8
  | .wcharC => 32
  | .char16C => 16
  | .char32C => 32

/-- Modelled from the spec: hex digits of an escape payload, equal to the
width of the source character type in hex digits. -/
def kindHexDigits : CharKind → Nat
  | .charC => 2
  | .wcharC => 8
  | .char16C => 4
  | .char32C => 8

/-- Modelled from the spec: the literal tag the tests show in front of
escaped text of a given source kind (for example the `L` of
`L"\x00000074..."`). -/
def kindTag : CharKind → String
  | .charC => ""
  | .wcharC => "L"
  | .char16C => "u"
  | .char32C => "U"

/-- Modelled from the spec: the two standard stream families the tests
exercise (narrow `char` streams and wide `wchar_t` streams). -/
inductive StreamKind where
  | narrowSt | wideSt
  deriving DecidableEq, Repr

/-- Modelled from the spec: native character width of a stream family. -/
def streamBits : StreamKind → Nat
  | .narrowSt => 8
  | .wideSt => 32

/-- Modelled from the spec: the character kind of a stream family. -/
def streamChar : StreamKind → CharKind
  | .narrowSt => .charC
  | .wideSt => .wcharC

/-- Modelled from the spec: the two-valued per-stream escape mode. -/
inductive EscMode where
  | literalM | quotedM
  deriving DecidableEq, Repr

/-- Modelled from the spec: the process-wide default escape mode is
`literal`. -/
def defaultMode : EscMode := .literalM

/-- One lowercase hex digit. -/
def hexDigit (n : Nat) : Char :=
  if n < 10 then Char.ofNat (48 + n) else Char.ofNat (87 + n)

/-- Fixed-width lowercase hex rendering of a code point (most significant
digit first, zero padded). -/
def hexFixed : Nat → Nat → String
  | 0, _ => ""
  | d + 1, c => hexFixed d (c / 16) ++ String.singleton (hexDigit (c % 16))

/-- Modelled from the spec: the standard short mnemonic control escapes
(the tests show `\t` for tab and `\0` for NUL). -/
def mnemonicOf (c : Nat) : Option Char :=
  if c = 0 then some (Char.ofNat 48)
  else if c = 7 then some (Char.ofNat 97)
  else if c = 8 then some (Char.ofNat 98)
  else if c = 9 then some (Char.ofNat 116)
  else if c = 10 then some (Char.ofNat 110)
  else if c = 11 then some (Char.ofNat 118)
  else if c = 12 then some (Char.ofNat 102)
  else if c = 13 then some (Char.ofNat 114)
  else none

/-- Modelled from the spec: escaping one character when the source and
destination widths match.  Quoted mode escapes only the quote character
`qc` and the escape character; literal mode additionally uses the standard
mnemonic escapes and hex-escapes every remaining non-printable ASCII-7
code point, with `digits` hex digits of payload. -/
def escCharSame (digits : Nat) (qc : Nat) (m : EscMode) (c : Nat) : String :=
  match m with
  | .quotedM =>
      if c = 92 ∨ c = qc then
        String.singleton (Char.ofNat 92) ++ String.singleton (Char.ofNat c)
      else String.singleton (Char.ofNat c)
  | .literalM =>
      if c = 92 ∨ c = qc then
        String.singleton (Char.ofNat 92) ++ String.singleton (Char.ofNat c)
      else
        match mnemonicOf c with
        | some mn => String.singleton (Char.ofNat 92) ++ String.singleton mn
        | none =>
            if 32 ≤ c ∧ c ≤ 126 then String.singleton (Char.ofNat c)
            else String.singleton (Char.ofNat 92) ++ "x" ++ hexFixed digits c

/-- Modelled from the spec: escaping one character of source kind `k` for a
stream of family `st`.  When the widths differ every character is rendered
as a fixed-width hexadecimal escape whose payload width equals the width of
the source character type in hex digits; otherwise the same-width rules of
the current mode apply. -/
def escChar (k : CharKind) (st : StreamKind) (m : EscMode) (qc : Nat)
    (c : Nat) : String :=
  if kindBits k ≠ streamBits st then
    String.singleton (Char.ofNat 92) ++ "x" ++ hexFixed (kindHexDigits k) c
  else escCharSame (kindHexDigits k) qc m c

/-- Modelled from the spec: the escaped rendering of a string value (source
kind `k`, contents `cs`): the source-kind tag, an opening quote, every
character escaped with the double quote as the quote character, and a
closing quote. -/
def strLit (k : CharKind) (st : StreamKind) (m : EscMode)
    (cs : List Nat) : String :=
  kindTag k ++ "\"" ++ String.join (cs.map (escChar k st m 34)) ++ "\""

/-- Modelled from the spec: the escaped rendering of a single character
value, quoted with single quotes. -/
def charLit (k : CharKind) (st : StreamKind) (m : EscMode) (c : Nat) : String :=
  kindTag k ++ "'" ++ escChar k st m 39 c ++ "'"

/-- Modelled from the spec: the 4-token delimiter shapes of the missing
header's table (default, set-like, pair, tuple). -/
inductive CsShape where
  | defaultSh | setSh | pairSh | tupleSh
  deriving DecidableEq, Repr

/-- Modelled from the spec: an immutable DelimiterSet quadruple
{prefix, separator, whitespace, suffix}. -/
structure CsDelims where
  pre : String
  sep : String
  ws : String
  suf : String
  deriving DecidableEq, Repr

/-- Modelled from the spec: `decorator::delimiters` lookup of the missing
header, keyed by shape and character width; the token glyphs are those the
unit tests require at every width. -/
def delimiters : CsShape → CharKind → CsDelims
  | .setSh, _ => ⟨"\x7b", ",", " ", "\x7d"⟩
  | .pairSh, _ => ⟨"(", ",", " ", ")"⟩
  | .tupleSh, _ => ⟨"<", ",", " ", ">"⟩
  | .defaultSh, _ => ⟨"[", ",", " ", "]"⟩

/-- Modelled from the spec: the delimiter shape of a standard container
kind (sets are set-like; maps and everything else use the default). -/
def shapeOfKind : ContainerPrinter.StdKind → CsShape
  | .setK => .setSh
  | .multisetK => .setSh
  | _ => .defaultSh

/-- Modelled from the spec: values printable by the missing header, with
character and string values carrying their source character kind. -/
inductive CsValue where
  | cint : Int → CsValue
  | cchar : CharKind → Nat → CsValue
  | cstr : CharKind → List Nat → CsValue
  | cpairV : CsValue → CsValue → CsValue
  | clist : ContainerPrinter.StdKind → List CsValue → CsValue

mutual
/-- Modelled from the spec: the text printed for a value by the missing
header's default formatter on a stream of family `st` whose attached
escape mode is `m`: char and string elements route through the escaping
engine under the stream's mode, other elements use native formatting, and
`print_delimiter` emits separator then whitespace between successive
elements. -/
def csRender (st : StreamKind) (m : EscMode) : CsValue → String
  | .cint i => toString i
  | .cchar k c => charLit k st m c
  | .cstr k cs => strLit k st m cs
  | .cpairV a b =>
      let d := delimiters .pairSh (streamChar st)
      d.pre ++ csRender st m a ++ d.sep ++ d.ws ++ csRender st m b ++ d.suf
  | .clist k xs =>
      let d := delimiters (shapeOfKind k) (streamChar st)
      d.pre ++
        ContainerPrinter.sepJoin (d.sep ++ d.ws) (csRenderList st m xs) ++ d.suf

def csRenderList (st : StreamKind) (m : EscMode) : List CsValue → List String
  | [] => []
  | x :: xs => csRender st m x :: csRenderList st m xs
end

/-- Characters at or above the printable ASCII range have no mnemonic
escape. -/
theorem mnemonicOf_ge32 (c : Nat) (h : 32 ≤ c) : mnemonicOf c = none := by
  unfold mnemonicOf
  repeat rw [if_neg (by omega)]

end ContainerStreamIO

namespace ContainerPrinter

theorem renderList_length (l : List Value) : (renderList l).length = l.length := by
  induction l with
  | nil => rfl
  | cons x xs ih => rw [renderList]; simp [ih]

/-! ## Claims -/

/-- C1: for every printable container with zero elements and every stream,
the top-level print emits exactly the shape's prefix immediately followed
by its suffix, with no separator and no element output, regardless of the
container's declared element type. -/
theorem C1_empty_container_prints_delims_only
    (s : CStream) (k : StdKind) (et : CppType) :
    opStreamIns s (.vlist k et []) =
      some (wr s ((Decorator.contDelims k).pre ++ (Decorator.contDelims k).suf)) := by
  rw [opStreamIns]
  rw [if_pos (by cases k <;> rfl)]
  rw [streamIns_eq]
  simp [render, renderList, sepJoin, wr, str_append_assoc, str_append_empty]

/-- C2: printing a tuple emits the tuple prefix, then the elements in
index-ascending order joined by exactly one separator between successive
elements (hence N−1 separators, none trailing), then the suffix; the empty
tuple prints as the two delimiters alone and a one-element tuple prints the
delimiters around the single element's rendering. -/
theorem C2_tuple_printing_law :
    (∀ (s : CStream) (xs : List Value),
      opStreamIns s (.vtuple xs) =
        some (wr s (Decorator.tupleDelims.pre ++
          sepJoin Decorator.tupleDelims.sep (renderList xs) ++
          Decorator.tupleDelims.suf))) ∧
    (∀ s : CStream, opStreamIns s (.vtuple []) = some (wr s "<>")) ∧
    (∀ (s : CStream) (x : Value),
      opStreamIns s (.vtuple [x]) = some (wr s ("<" ++ render x ++ ">"))) := by
  have hmain : ∀ (s : CStream) (xs : List Value),
      opStreamIns s (.vtuple xs) =
        some (wr s (Decorator.tupleDelims.pre ++
          sepJoin Decorator.tupleDelims.sep (renderList xs) ++
          Decorator.tupleDelims.suf)) := by
    intro s xs
    rw [opStreamIns, if_pos (show Traits.is_printable_as_container
      (typeOfValue (Value.vtuple xs)) = true from rfl), streamIns_eq, render]
    rw [← renderList_length xs, tupleHandlerAux_sepJoin]
  refine ⟨hmain, ?_, ?_⟩
  · intro s
    rw [hmain s []]
    congr 1
  · intro s x
    rw [hmain s [x]]
    simp [renderList, sepJoin, tailJoin, Decorator.tupleDelims,
      str_append_empty]

end ContainerPrinter

namespace ContainerStreamIO

/-- C3: char and string elements inside containers are escaped and quoted
by default (the default stream mode is `literal`): the mapping
{(1,"Template"), (2,"Meta"), (3,"Programming")} prints on a narrow stream
as `[(1, "Template"), (2, "Meta"), (3, "Programming")]` with every string
element wrapped in quote marks, and in general every string or character
element rendered under the default mode is wrapped in (tagged) quote
marks. -/
theorem C3_container_elements_escaped_by_default :
    (csRender .narrowSt defaultMode (.clist .mapK
        [.cpairV (.cint 1) (.cstr .charC (ContainerPrinter.codes "Template")),
         .cpairV (.cint 2) (.cstr .charC (ContainerPrinter.codes "Meta")),
         .cpairV (.cint 3) (.cstr .charC (ContainerPrinter.codes "Programming"))]) =
      "[(1, \"Template\"), (2, \"Meta\"), (3, \"Programming\")]") ∧
    (∀ (st : StreamKind) (k : CharKind) (cs : List Nat), ∃ b,
      csRender st defaultMode (.cstr k cs) = kindTag k ++ "\"" ++ b ++ "\"") ∧
    (∀ (st : StreamKind) (k : CharKind) (c : Nat), ∃ b,
      csRender st defaultMode (.cchar k c) = kindTag k ++ "'" ++ b ++ "'") := by
  refine ⟨by decide, ?_, ?_⟩
  · intro st k cs
    exact ⟨String.join (cs.map (escChar k st defaultMode 34)), rfl⟩
  · intro st k c
    exact ⟨escChar k st defaultMode 39 c, rfl⟩

/-- C4 counterexample: escaping the 8-bit string "test" on a 32-bit-width
stream renders each character as a 2-hex-digit escape, not as the
8-hex-digit escape the claim states. -/
theorem C4_payload_width_counterexample :
    strLit .charC .wideSt .literalM (ContainerPrinter.codes "test") =
      "\"\\x74\\x65\\x73\\x74\"" ∧
    strLit .charC .wideSt .literalM (ContainerPrinter.codes "test") ≠
      "\"\\x00000074\\x00000065\\x00000073\\x00000074\"" := by
  decide

/-- C4 (amended): when the source character width differs from the stream's
width, every character of a string or character value is rendered as a
fixed-width hexadecimal escape whose payload width equals the width of the
source character type in hex digits (so a 32-bit element on an 8-bit
stream gets 8 digits and an 8-bit element on a 32-bit stream gets 2);
with matching widths, literal mode copies every printable non-quote
non-escape character through directly. -/
theorem C4_width_mismatch_hex_law :
    (∀ (k : CharKind) (st : StreamKind) (m : EscMode) (cs : List Nat),
      kindBits k ≠ streamBits st →
      strLit k st m cs = kindTag k ++ "\"" ++
        String.join (cs.map (fun c => String.singleton (Char.ofNat 92) ++ "x" ++
          hexFixed (kindHexDigits k) c)) ++ "\"") ∧
    (∀ (k : CharKind) (st : StreamKind) (m : EscMode) (c : Nat),
      kindBits k ≠ streamBits st →
      charLit k st m c = kindTag k ++ "'" ++
        (String.singleton (Char.ofNat 92) ++ "x" ++
          hexFixed (kindHexDigits k) c) ++ "'") ∧
    (∀ (k : CharKind) (st : StreamKind) (c : Nat),
      kindBits k = streamBits st → 32 ≤ c → c ≤ 126 → c ≠ 34 → c ≠ 92 →
      escChar k st .literalM 34 c = String.singleton (Char.ofNat c)) := by
  refine ⟨?_, ?_, ?_⟩
  · intro k st m cs h
    have hf : escChar k st m 34 = fun c => String.singleton (Char.ofNat 92) ++
        "x" ++ hexFixed (kindHexDigits k) c := by
      funext c
      rw [escChar, if_pos h]
    rw [strLit, hf]
  · intro k st m c h
    rw [charLit, escChar, if_pos h]
  · intro k st c h h32 h126 h34 h92
    rw [escChar, if_neg (by omega), escCharSame]
    rw [if_neg (by omega), mnemonicOf_ge32 c h32]
    exact if_pos ⟨h32, h126⟩

/-- Closed instance of the amended C4 law at its hypotheses: the 8-bit
string "test" on the 32-bit stream (widths differ). -/
theorem C4_width_mismatch_hex_law_witness :
    strLit .charC .wideSt .literalM (ContainerPrinter.codes "test") =
      kindTag .charC ++ "\"" ++
        String.join ((ContainerPrinter.codes "test").map (fun c =>
          String.singleton (Char.ofNat 92) ++ "x" ++
            hexFixed (kindHexDigits .charC) c)) ++ "\"" :=
  C4_width_mismatch_hex_law.1 .charC .wideSt .literalM
    (ContainerPrinter.codes "test") (by decide)

/-- C5: for every supported shape and character width, the delimiter lookup
returns a quadruple of non-empty tokens including the distinct whitespace
token, and repeated lookups return identical values. -/
theorem C5_delimiter_lookup_total_and_stable
    (sh : CsShape) (k : CharKind) :
    (delimiters sh k).pre ≠ "" ∧ (delimiters sh k).sep ≠ "" ∧
    (delimiters sh k).ws ≠ "" ∧ (delimiters sh k).suf ≠ "" ∧
    delimiters sh k = delimiters sh k := by
  cases sh <;> cases k <;> decide

end ContainerStreamIO

namespace ContainerPrinter

/-- C6 counterexample: the delimiter lookup has no map specialization, so a
map container type gets the default square-bracket prefix, not a curly
brace. -/
theorem C6_map_gets_default_brackets :
    (Decorator.delimiters .narrowW
      (.stdCont .mapK (.pairT (.scalar .intS) (.basicString .charS)))).pre
        = "[" ∧
    ("[" : String) ≠ "\x7b" := by
  constructor
  · rfl
  · decide

/-- C6 (amended): at each supported character width, set and multiset
container types get curly-brace delimiters, while map and multimap types
have no specialization and get the default square brackets, for every
element type. -/
theorem C6_set_braces_map_default :
    (∀ (w : Decorator.CharWidthCp) (et : CppType),
      Decorator.delimiters w (.stdCont .setK et) = ⟨"\x7b", ", ", "\x7d"⟩) ∧
    (∀ (w : Decorator.CharWidthCp) (et : CppType),
      Decorator.delimiters w (.stdCont .multisetK et) = ⟨"\x7b", ", ", "\x7d"⟩) ∧
    (∀ (w : Decorator.CharWidthCp) (et : CppType),
      Decorator.delimiters w (.stdCont .mapK et) = ⟨"[", ", ", "]"⟩) ∧
    (∀ (w : Decorator.CharWidthCp) (et : CppType),
      Decorator.delimiters w (.stdCont .multimapK et) = ⟨"[", ", ", "]"⟩) := by
  refine ⟨?_, ?_, ?_, ?_⟩ <;> (intro w et; cases w <;> rfl)

/-- C7 counterexample: `char16_t` is a character-scalar kind, yet the
header classifies a `char16_t` array as a printable container (it
specializes only `char` and `wchar_t` arrays away). -/
theorem C7_char16_array_is_container :
    Traits.is_char_variant .char16S = true ∧
    Traits.is_printable_as_container (.carray (.scalar .char16S) 5) = true := by
  constructor <;> rfl

/-- C7 (amended): fixed-size arrays of the narrow and wide character types
are not classified as printable containers, while arrays of `char16_t`, of
`char32_t` and of every non-character scalar type are. -/
theorem C7_char_array_classification :
    (∀ n, Traits.is_printable_as_container (.carray (.scalar .charS) n) = false) ∧
    (∀ n, Traits.is_printable_as_container (.carray (.scalar .wcharS) n) = false) ∧
    (∀ n, Traits.is_printable_as_container (.carray (.scalar .char16S) n) = true) ∧
    (∀ n, Traits.is_printable_as_container (.carray (.scalar .char32S) n) = true) ∧
    (∀ (k : ScalarKind) n, Traits.is_char_variant k = false →
      Traits.is_printable_as_container (.carray (.scalar k) n) = true) := by
  refine ⟨fun _ => rfl, fun _ => rfl, fun _ => rfl, fun _ => rfl, ?_⟩
  intro k n h
  cases k <;> first
    | rfl
    | exact absurd h (by decide)

/-- Closed instance of the amended C7 classification at its hypothesis:
an `int` array is a printable container. -/
theorem C7_char_array_classification_witness :
    Traits.is_printable_as_container (.carray (.scalar .intS) 5) = true :=
  C7_char_array_classification.2.2.2.2 .intS 5 rfl

/-- C8: for every type the traits do not classify as a printable
container, the guarded stream-insertion operator does not participate; no
unprintable value reaches the printing path. -/
theorem C8_unprintable_rejected (s : CStream) (v : Value)
    (h : Traits.is_printable_as_container (typeOfValue v) = false) :
    opStreamIns s v = none := by
  rw [opStreamIns, if_neg]
  simp [h]

/-- Closed instance of C8: a bare int never reaches the container printing
path. -/
theorem C8_unprintable_rejected_witness :
    opStreamIns ⟨""⟩ (.vint 7) = none :=
  C8_unprintable_rejected ⟨""⟩ (.vint 7) rfl

/-- C9: the tuple ToStream overload of the header has no formatter
parameter (it is commented out with a todo note), so a tuple streamed
through the entry point is always rendered with the default formatter's
tokens. -/
theorem C9_tuple_always_default_formatted :
    opStreamIns ⟨""⟩ (.vtuple [.vint 1, .vint 2, .vint 3, .vint 4]) =
      some ⟨"<1, 2, 3, 4>"⟩ := by
  decide

/-- C10: for every printable container value and every stream, the guarded
stream-insertion operator returns the very stream it was given, holding
its previous output followed by exactly the container's rendering — the
append/chaining behaviour of native stream insertions. -/
theorem C10_operator_returns_given_stream (s : CStream) (v : Value)
    (h : Traits.is_printable_as_container (typeOfValue v) = true) :
    opStreamIns s v = some (wr s (render v)) := by
  rw [opStreamIns, if_pos h, streamIns_eq]

/-- Closed instance of C10: inserting a pair into a stream that already
holds text appends the pair's rendering to that same stream. -/
theorem C10_operator_returns_given_stream_witness :
    opStreamIns ⟨"x: "⟩ (.vpair (.vint 1) (.vint 2)) =
      some (wr ⟨"x: "⟩ (render (.vpair (.vint 1) (.vint 2)))) :=
  C10_operator_returns_given_stream ⟨"x: "⟩ (.vpair (.vint 1) (.vint 2)) rfl

end ContainerPrinter
